import Mathlib

/-!
Shallow embedding of the rolling-window uptime monitor of `multi-cli`
(source: `src/unnamed/part_003`, the `monitor` subcommand).

JavaScript numbers that can be NaN are modelled as `Option ℚ`, with `none`
standing for NaN; finite values are exact rationals. External collaborators
(the HTTP client `fetch`, the `ping` library, the platform `URL`
constructor) are modelled as inputs describing their outcome, never as
stubs of repository code.
-/

set_option autoImplicit false

namespace MultiCli

/-- One probe outcome, `interface MonitoringResult` (part_003 lines 6-11).
`responseTime` is a JS number: `none` models NaN, `some q` a finite value. -/
structure MonitoringResult where
  timestamp : String
  status : Nat
  responseTime : Option ℚ
  isUp : Bool
deriving Repr, DecidableEq

/-- The module-level `monitoringCache : Map<string, MonitoringResult[]>`
(part_003 line 13), modelled as an association list. -/
abbrev Cache := List (String × List MonitoringResult)

/-- `monitoringCache.get(url) || []` (part_003 line 66). -/
def cacheGet : Cache → String → List MonitoringResult
  | [], _ => []
  | p :: t, url => if p.1 == url then p.2 else cacheGet t url

/-- `monitoringCache.set(url, results)` (part_003 line 69). -/
def cacheSet : Cache → String → List MonitoringResult → Cache
  | [], url, rs => [(url, rs)]
  | p :: t, url, rs => if p.1 == url then (url, rs) :: t else p :: cacheSet t url rs

/-- The JS value `res.time` returned by the ping backend: a number,
a string, or anything else (e.g. `undefined`). A NaN number is `num`
with no rational value, which the backend does not produce, so `num`
carries a finite rational. -/
inductive PingTime where
  | num (q : ℚ)
  | str (s : String)
  | other
deriving Repr, DecidableEq

/-- Numeric value of a block of decimal digit characters. -/
def digitsVal (ds : List Char) : Nat :=
  ds.foldl (fun a c => 10 * a + (c.toNat - 48)) 0

/-- Mantissa and fraction part of a decimal literal, as an exact rational. -/
def mantissaVal (intPart fracPart : List Char) : ℚ :=
  (digitsVal intPart : ℚ) + (digitsVal fracPart : ℚ) / (10 : ℚ) ^ fracPart.length

/-- Exponent suffix (`e`/`E`, optional sign, digits) of a decimal literal;
an absent or digitless exponent contributes `0`, as in JS `parseFloat`. -/
def expoVal (cs : List Char) : Int :=
  match cs with
  | e :: t =>
    if e == 'e' || e == 'E' then
      match t with
      | '-' :: u => -(digitsVal (u.takeWhile Char.isDigit) : Int)
      | '+' :: u => (digitsVal (u.takeWhile Char.isDigit) : Int)
      | u => (digitsVal (u.takeWhile Char.isDigit) : Int)
    else 0
  | [] => 0

/-- JS `parseFloat` on a sign-free character list: longest valid prefix
`digits [. digits] [exponent]`; `none` (NaN) when no digit is found. -/
def parseFloatUnsigned (cs : List Char) : Option ℚ :=
  let intPart := cs.takeWhile Char.isDigit
  let rest := cs.dropWhile Char.isDigit
  let fracPart :=
    match rest with
    | '.' :: t => t.takeWhile Char.isDigit
    | _ => []
  let rest2 :=
    match rest with
    | '.' :: t => t.dropWhile Char.isDigit
    | _ => rest
  if intPart.isEmpty && fracPart.isEmpty then none
  else some (mantissaVal intPart fracPart * (10 : ℚ) ^ expoVal rest2)

/-- JS `parseFloat` (the platform builtin used at part_003 line 47):
skips leading whitespace, reads an optional sign and the longest decimal
prefix; `none` models NaN (no parseable prefix). Non-finite parses such
as the literal string Infinity are outside the monitor inputs and also
map to `none`. -/
def parseFloat (s : String) : Option ℚ :=
  match s.toList.dropWhile Char.isWhitespace with
  | '-' :: t => (parseFloatUnsigned t).map (fun q => -q)
  | '+' :: t => parseFloatUnsigned t
  | cs => parseFloatUnsigned cs

/-- The coercion of `res.time` (part_003 lines 46-47):
`typeof res.time === 'number' ? res.time : typeof res.time === 'string' ?
parseFloat(res.time) : 0`. `none` models NaN. -/
def coerceResponseTime : PingTime → Option ℚ
  | .num q => some q
  | .str s => parseFloat s
  | .other => some 0

/-- What the external probe call of one tick did: an HTTP response
(`fetch` resolved), a ping reply (`ping.promise.probe` resolved), or a
thrown error (aborted fetch on timeout, DNS failure, connection refused). -/
inductive ProbeOutcome where
  | httpResponse (status : Nat) (elapsedMs : ℚ)
  | pingReply (alive : Bool) (time : PingTime)
  | thrown (msg : String)
deriving Repr, DecidableEq

/-- The probe section of `check` (part_003 lines 43-64): builds the
`MonitoringResult` from the probe call, or rethrows the probe error
(to the `catch` at lines 87-91). -/
def probeResult (o : ProbeOutcome) (ts : String) : Except String MonitoringResult :=
  match o with
  | .thrown msg => .error msg
  | .pingReply alive time =>
    let status := if alive then 200 else 503
    .ok { timestamp := ts, status := status,
          responseTime := coerceResponseTime time, isUp := status == 200 }
  | .httpResponse status elapsedMs =>
    .ok { timestamp := ts, status := status,
          responseTime := some elapsedMs, isUp := status == 200 }

/-- The history update of `check` (part_003 lines 66-68):
`results.push(result); if (results.length > 10) results.shift();`
(`push` appends, `shift` drops index 0). -/
def record (results : List MonitoringResult) (r : MonitoringResult) :
    List MonitoringResult :=
  if (results ++ [r]).length > 10 then (results ++ [r]).tail else results ++ [r]

/-- JS `+` on possibly-NaN numbers. -/
def jsAdd (a b : Option ℚ) : Option ℚ :=
  match a, b with
  | some x, some y => some (x + y)
  | _, _ => none

/-- JS division of a possibly-NaN number by an array length
(`0/0` is NaN in JS, hence `none` at length `0`). -/
def jsDivByLen (s : Option ℚ) (n : Nat) : Option ℚ :=
  s.bind (fun x => if n = 0 then none else some (x / (n : ℚ)))

/-- `(results.filter(r => r.isUp).length / results.length) * 100`
(part_003 line 71); `none` is the NaN produced by an empty window. -/
def availability (results : List MonitoringResult) : Option ℚ :=
  if results.length = 0 then none
  else some (((results.filter (fun r => r.isUp)).length : ℚ) / (results.length : ℚ) * 100)

/-- `results.reduce((sum, r) => sum + r.responseTime, 0) / results.length`
(part_003 line 72), in JS number arithmetic. -/
def avgResponseTime (results : List MonitoringResult) : Option ℚ :=
  jsDivByLen (results.foldl (fun a r => jsAdd a r.responseTime) (some 0)) results.length

/-- What one successful tick of `check` computed and rendered. -/
structure TickOutput where
  cache : Cache
  result : MonitoringResult
  shownAvailability : Option ℚ
  shownAvgResponseTime : Option ℚ
deriving Repr, DecidableEq

/-- The `try` body of `check` (part_003 lines 43-85): probe, build the
result, record it in the cache, recompute the aggregates. `Except.error`
is an exception reaching the `catch` (lines 87-91). -/
def runCheck (cache : Cache) (url : String) (o : ProbeOutcome) (ts : String) :
    Except String TickOutput :=
  match probeResult o ts with
  | .error msg => .error msg
  | .ok result =>
    let results := record (cacheGet cache url) result
    .ok { cache := cacheSet cache url results,
          result := result,
          shownAvailability := availability results,
          shownAvgResponseTime := avgResponseTime results }

/-- One whole tick of `check`, `try`/`catch` included (part_003 lines
38-92): on an exception the `catch` prints the message and leaves the
cache untouched; the function itself never throws. -/
def tickStep (cache : Cache) (url : String) (o : ProbeOutcome) (ts : String) :
    Cache × Option String :=
  match runCheck cache url o ts with
  | .error msg => (cache, some msg)
  | .ok out => (out.cache, none)

/-- The monitoring loop state after a sequence of ticks: `setInterval`
keeps invoking `check` (part_003 lines 94-96), each tick folding over the
cache; a tick error never stops the fold. -/
def runTicks (cache : Cache) (url : String) (os : List ProbeOutcome) (ts : String) : Cache :=
  os.foldl (fun c o => (tickStep c url o ts).1) cache

/-- Options of the `monitor` command (part_003 lines 19-22): `url` is
absent when the flag was not given; `interval` and `timeout` default to
the strings 60 and 10. -/
structure MonitorOptions where
  url : Option String
  interval : String
  timeout : String
  ping : Bool
deriving Repr, DecidableEq

/-- JS `parseInt(s)` (radix 10): leading whitespace, optional sign,
longest digit prefix; `none` models NaN. -/
def parseIntJS (s : String) : Option Int :=
  match s.toList.dropWhile Char.isWhitespace with
  | '-' :: t =>
    if (t.takeWhile Char.isDigit).isEmpty then none
    else some (-(digitsVal (t.takeWhile Char.isDigit) : Int))
  | '+' :: t =>
    if (t.takeWhile Char.isDigit).isEmpty then none
    else some (digitsVal (t.takeWhile Char.isDigit) : Int)
  | cs =>
    if (cs.takeWhile Char.isDigit).isEmpty then none
    else some (digitsVal (cs.takeWhile Char.isDigit) : Int)

/-- Configuration the loop starts with when the action body reaches
line 35 of part_003. -/
structure LoopConfig where
  url : String
  hostname : String
  intervalMs : Option Int
  timeoutMs : Option Int
  pingMode : Bool
deriving Repr, DecidableEq

/-- The action body of the `monitor` command (part_003 lines 23-106).
`urlOutcome` is the result of the platform `new URL(options.url)` call,
an external collaborator: `some hostname` when the constructor succeeds,
`none` when it throws (syntactically invalid URL; the outer `catch` at
lines 103-105 then prints one error). Returns the error messages printed
and the loop configuration — `none` when monitoring never starts. -/
def websiteMonitorAction (opts : MonitorOptions) (urlOutcome : Option String) :
    List String × Option LoopConfig :=
  match opts.url with
  | none => (["Error: URL is required"], none)
  | some u =>
    if u.isEmpty then (["Error: URL is required"], none)
    else
      match urlOutcome with
      | none => (["Error: Invalid URL"], none)
      | some host =>
        ([], some { url := u, hostname := host,
                    intervalMs := (parseIntJS opts.interval).map (fun n => n * 1000),
                    timeoutMs := (parseIntJS opts.timeout).map (fun n => n * 1000),
                    pingMode := opts.ping })

/-- Start time of tick `i` under the source scheduling (part_003 lines
94-96): tick 0 is the awaited first check, starting at 0 and running for
`dur 0` ms; only after it completes is `setInterval(check, interval)`
armed, so tick `i ≥ 1` starts at `dur 0 + i * intervalMs` on a fixed
wall-clock period from the arming time, regardless of how long any
later tick takes. -/
def tickStart (intervalMs : Nat) (dur : Nat → Nat) : Nat → Nat
  | 0 => 0
  | i + 1 => dur 0 + (i + 1) * intervalMs

/-- Tick `i` (running for `dur i` ms) is still in flight when tick `j`
starts. -/
def ticksOverlap (intervalMs : Nat) (dur : Nat → Nat) (i j : Nat) : Prop :=
  i < j ∧ tickStart intervalMs dur j < tickStart intervalMs dur i + dur i

instance (intervalMs : Nat) (dur : Nat → Nat) (i j : Nat) :
    Decidable (ticksOverlap intervalMs dur i j) :=
  inferInstanceAs (Decidable (_ ∧ _))

/-- Spec formula (§8): availability over a window with `k` of `n` up. -/
def specAvailability (k n : Nat) : ℚ :=
  (k : ℚ) / (n : ℚ) * 100

/-- Spec formula (§8): arithmetic mean of the response times. -/
def specMean (qs : List ℚ) : ℚ :=
  qs.sum / (qs.length : ℚ)

/-- The number rendered by `toFixed(1)` (part_003 line 78) for a
non-negative value: rounding to the nearest tenth, half up. -/
def toFixed1 (x : ℚ) : ℚ :=
  (⌊x * 10 + 1 / 2⌋ : ℚ) / 10

/-- Window retained after the three-probe scenario of spec §8
(statuses 200, 503, 200). -/
def scenarioWindow : List MonitoringResult :=
  cacheGet
    (runTicks [] ("u")
      [ProbeOutcome.httpResponse 200 120, ProbeOutcome.httpResponse 503 0,
       ProbeOutcome.httpResponse 200 130] ("t"))
    ("u")

/-! ### Helper lemmas -/

lemma length_record (h : List MonitoringResult) (r : MonitoringResult)
    (hle : h.length ≤ 10) : (record h r).length = min (h.length + 1) 10 := by
  unfold record
  split
  · next hgt =>
      simp only [List.length_tail, List.length_append, List.length_singleton] at *
      omega
  · next hle2 =>
      simp only [List.length_append, List.length_singleton] at *
      omega

lemma length_foldl_record (rs : List MonitoringResult) :
    ∀ (h : List MonitoringResult), h.length ≤ 10 →
      (rs.foldl record h).length = min (h.length + rs.length) 10 := by
  induction rs with
  | nil =>
      intro h hle
      simp only [List.foldl_nil, List.length_nil, Nat.add_zero]
      omega
  | cons r rt ih =>
      intro h hle
      rw [List.foldl_cons]
      have h1 : (record h r).length = min (h.length + 1) 10 := length_record h r hle
      have h2 : (record h r).length ≤ 10 := by omega
      rw [ih (record h r) h2, h1]
      simp only [List.length_cons]
      omega

lemma mem_of_mem_record (h : List MonitoringResult) (r x : MonitoringResult)
    (hx : x ∈ record h r) : x ∈ h ∨ x = r := by
  unfold record at hx
  split at hx
  · have hx2 : x ∈ h ++ [r] := List.tail_subset _ hx
    simpa using hx2
  · simpa using hx

lemma cacheGet_cacheSet_self (c : Cache) (url : String) (rs : List MonitoringResult) :
    cacheGet (cacheSet c url rs) url = rs := by
  induction c with
  | nil => simp [cacheSet, cacheGet]
  | cons p t ih =>
      by_cases hp : p.1 == url
      · simp [cacheSet, cacheGet, hp]
      · simp [cacheSet, cacheGet, hp, ih]

lemma isUp_of_probeResult (o : ProbeOutcome) (ts : String) (r : MonitoringResult)
    (h : probeResult o ts = .ok r) : r.isUp = (r.status == 200) := by
  cases o with
  | httpResponse st e =>
      simp only [probeResult, Except.ok.injEq] at h
      subst h
      rfl
  | pingReply alive time =>
      simp only [probeResult, Except.ok.injEq] at h
      subst h
      rfl
  | thrown msg => simp [probeResult] at h

lemma runTicks_isUp_inv (url ts : String) (os : List ProbeOutcome) :
    ∀ (c : Cache), (∀ x ∈ cacheGet c url, x.isUp = (x.status == 200)) →
      ∀ x ∈ cacheGet (runTicks c url os ts) url, x.isUp = (x.status == 200) := by
  induction os with
  | nil =>
      intro c hc
      simpa [runTicks] using hc
  | cons o ot ih =>
      intro c hc
      have hstep : ∀ x ∈ cacheGet (tickStep c url o ts).1 url,
          x.isUp = (x.status == 200) := by
        cases hp : probeResult o ts with
        | error msg =>
            simpa only [tickStep, runCheck, hp] using hc
        | ok r =>
            intro x hx
            simp only [tickStep, runCheck, hp] at hx
            rw [cacheGet_cacheSet_self] at hx
            rcases mem_of_mem_record _ _ _ hx with hmem | hmem
            · exact hc x hmem
            · rw [hmem]
              exact isUp_of_probeResult o ts r hp
      have hstep2 : runTicks c url (o :: ot) ts = runTicks (tickStep c url o ts).1 url ot ts := rfl
      rw [hstep2]
      exact ih _ hstep

lemma foldl_jsAdd_finite (results : List MonitoringResult) :
    ∀ (qs : List ℚ) (a : ℚ),
      results.map (fun r => r.responseTime) = qs.map some →
      results.foldl (fun x r => jsAdd x r.responseTime) (some a) = some (a + qs.sum) := by
  induction results with
  | nil =>
      intro qs a hmap
      have hqs : qs = [] := by cases qs <;> simp_all
      subst hqs
      simp
  | cons r rt ih =>
      intro qs a hmap
      cases qs with
      | nil => simp at hmap
      | cons q qt =>
          simp only [List.map_cons, List.cons.injEq] at hmap
          obtain ⟨h1, h2⟩ := hmap
          rw [List.foldl_cons]
          have hadd : jsAdd (some a) r.responseTime = some (a + q) := by
            rw [h1]
            rfl
          rw [hadd, ih qt (a + q) h2]
          congr 1
          simp only [List.sum_cons]
          ring

lemma scenarioWindow_eq :
    scenarioWindow =
      [{ timestamp := "t", status := 200, responseTime := some 120, isUp := true },
       { timestamp := "t", status := 503, responseTime := some 0, isUp := false },
       { timestamp := "t", status := 200, responseTime := some 130, isUp := true }] := rfl

/-! ### Claim theorems -/

/-- C1 (counterexample): a probe that throws (here a DNS failure) does
NOT record any `MonitoringResult` into the target's history — contrary
to the claim, the tick leaves the history empty and only reports the
error message. -/
theorem monitor_probe_failure_records_cex :
    tickStep [] ("u") (ProbeOutcome.thrown ("getaddrinfo ENOTFOUND")) ("t")
      = ([], some ("getaddrinfo ENOTFOUND"))
    ∧ cacheGet (tickStep [] ("u") (ProbeOutcome.thrown ("getaddrinfo ENOTFOUND")) ("t")).1 ("u")
      = [] := by
  exact ⟨rfl, rfl⟩

/-- C1 (amended): a probe failure that throws (timeout abort, DNS
failure, connection refused) is caught inside the tick: the cache is
unchanged, no result is recorded, only the error message is reported,
and the tick fold continues over the remaining ticks. -/
theorem monitor_probe_failure_contained :
    (∀ (cache : Cache) (url msg ts : String),
      tickStep cache url (ProbeOutcome.thrown msg) ts = (cache, some msg))
    ∧ (∀ (cache : Cache) (url msg ts : String) (os : List ProbeOutcome),
      runTicks cache url (ProbeOutcome.thrown msg :: os) ts = runTicks cache url os ts) := by
  exact ⟨fun _ _ _ _ => rfl, fun _ _ _ _ _ => rfl⟩

/-- C2: feeding any sequence of N results into the history via the
record step of `check` retains exactly `min N 10` of them. -/
theorem monitor_history_length (rs : List MonitoringResult) :
    (rs.foldl record []).length = min rs.length 10 := by
  have h := length_foldl_record rs [] (by simp)
  simpa using h

/-- C3: eviction is FIFO and order-preserving — after inserting eleven
results r0..r10 in order the history is exactly r1..r10 in order, and
every record step keeps a suffix of the appended list (it only ever
drops from the front, never reorders). -/
theorem monitor_eviction_fifo
    (r0 r1 r2 r3 r4 r5 r6 r7 r8 r9 r10 : MonitoringResult) :
    ([r0, r1, r2, r3, r4, r5, r6, r7, r8, r9, r10].foldl record [])
      = [r1, r2, r3, r4, r5, r6, r7, r8, r9, r10]
    ∧ ∀ (h : List MonitoringResult) (r : MonitoringResult),
        List.IsSuffix (record h r) (h ++ [r]) := by
  constructor
  · simp [record]
  · intro h r
    unfold record
    by_cases hc : (h ++ [r]).length > 10
    · rw [if_pos hc]
      exact List.tail_suffix _
    · rw [if_neg hc]

/-- C4: for a non-empty window with exactly k of n results up, the
availability computed by `check` equals the spec formula (k/n)*100
exactly; in the three-probe scenario with statuses 200, 503, 200 the
one-decimal rendering is 66.7. -/
theorem monitor_availability_formula :
    (∀ (results : List MonitoringResult) (k n : Nat),
      results ≠ [] →
      (results.filter (fun r => r.isUp)).length = k →
      results.length = n →
      availability results = some (specAvailability k n))
    ∧ availability scenarioWindow = some (specAvailability 2 3)
    ∧ toFixed1 (specAvailability 2 3) = 667 / 10 := by
  refine ⟨?_, ?_, ?_⟩
  case refine_2 =>
    rw [scenarioWindow_eq]
    norm_num [availability, specAvailability, List.filter]
  case refine_3 =>
    unfold toFixed1 specAvailability
    norm_num
  intro results k n hne hk hn
  have hlen : ¬ results.length = 0 := by
    simpa [List.length_eq_zero] using hne
  unfold availability specAvailability
  rw [if_neg hlen, hk, hn]

/-- C4 witness: the general availability formula applied to the
concrete three-probe scenario window. -/
theorem monitor_availability_formula_witness :
    availability scenarioWindow = some (specAvailability 2 3) :=
  monitor_availability_formula.1 scenarioWindow 2 3 (by decide) (by decide) (by decide)

/-- C5 (counterexample): with interval 1000 ms and every tick lasting
2500 ms, tick 2 (fired by setInterval at 4500 ms) starts while tick 1
(started at 3500 ms, in flight until 6000 ms) is still running — two
ticks of the source schedule overlap, contrary to the claim that no
two ticks ever overlap. -/
theorem monitor_no_overlap_cex :
    ticksOverlap 1000 (fun _ => 2500) 1 2 := by
  decide

/-- C5 (amended): the source awaits the first check and only then arms
`setInterval` on a fixed wall-clock period, so tick 0 never overlaps
tick 1; but every later tick i+2 starts exactly `intervalMs` after tick
i+1 regardless of completion, and those consecutive ticks overlap
exactly when the earlier tick's duration exceeds the interval (a slow
probe overlaps the next tick instead of delaying it). -/
theorem monitor_fixed_schedule_overlap (intervalMs : Nat) (dur : Nat → Nat) (i : Nat) :
    (ticksOverlap intervalMs dur (i + 1) (i + 2) ↔ intervalMs < dur (i + 1))
    ∧ ¬ ticksOverlap intervalMs dur 0 1
    ∧ tickStart intervalMs dur (i + 2) = tickStart intervalMs dur (i + 1) + intervalMs := by
  have h2 : tickStart intervalMs dur (i + 2) = dur 0 + (i + 2) * intervalMs := rfl
  have h1 : tickStart intervalMs dur (i + 1) = dur 0 + (i + 1) * intervalMs := rfl
  have hstart1 : tickStart intervalMs dur 1 = dur 0 + 1 * intervalMs := rfl
  have hstart0 : tickStart intervalMs dur 0 = 0 := rfl
  have hmul : (i + 2) * intervalMs = (i + 1) * intervalMs + intervalMs := by ring
  refine ⟨?_, ?_, ?_⟩
  · unfold ticksOverlap
    rw [h1, h2, hmul]
    generalize (i + 1) * intervalMs = m
    generalize dur (i + 1) = d
    generalize dur 0 = d0
    omega
  · unfold ticksOverlap
    rw [hstart0, hstart1]
    generalize dur 0 = d0
    omega
  · rw [h1, h2, hmul, Nat.add_assoc]

/-- C6 (counterexample): in ping mode an unparseable string round-trip
time is passed to parseFloat and yields NaN (`none`), not the claimed
default 0. -/
theorem monitor_ping_time_unparseable_cex :
    coerceResponseTime (PingTime.str ("abc")) = none
    ∧ ¬ coerceResponseTime (PingTime.str ("abc")) = some 0 := by
  decide

/-- C6 (amended): the ping-mode response time accepts both numeric and
string round-trip times — a number is used as-is, a string is parsed
with parseFloat (an unparseable string therefore yields NaN, not 0),
and the value defaults to 0 only when the representation is neither a
number nor a string. -/
theorem monitor_ping_time_coercion :
    (∀ (q : ℚ), coerceResponseTime (PingTime.num q) = some q)
    ∧ (∀ (s : String), coerceResponseTime (PingTime.str s) = parseFloat s)
    ∧ coerceResponseTime PingTime.other = some 0
    ∧ parseFloat ("12.5") = some (25 / 2) := by
  refine ⟨fun _ => rfl, fun _ => rfl, rfl, ?_⟩
  have h1 : parseFloat ("12.5")
      = some (mantissaVal ['1', '2'] ['5'] * (10 : ℚ) ^ (0 : Int)) := rfl
  have h2 : digitsVal ['1', '2'] = 12 := rfl
  have h3 : digitsVal ['5'] = 5 := rfl
  rw [h1]
  unfold mantissaVal
  rw [h2, h3]
  norm_num

/-- C7: for a non-empty window whose response times are the finite
values qs, the average computed by `check` equals the arithmetic mean
of qs. -/
theorem monitor_avg_response_time (results : List MonitoringResult) (qs : List ℚ)
    (hmap : results.map (fun r => r.responseTime) = qs.map some)
    (hne : results ≠ []) :
    avgResponseTime results = some (specMean qs) := by
  have hlen : results.length = qs.length := by
    have h := congrArg List.length hmap
    simpa using h
  have hlen0 : ¬ results.length = 0 := by
    simpa [List.length_eq_zero] using hne
  unfold avgResponseTime specMean
  rw [foldl_jsAdd_finite results qs 0 hmap]
  simp only [jsDivByLen, Option.some_bind]
  rw [if_neg hlen0, hlen, zero_add]

/-- C7 witness: the mean formula applied to the concrete three-probe
scenario window with response times 120, 0, 130. -/
theorem monitor_avg_response_time_witness :
    avgResponseTime scenarioWindow = some (specMean [120, 0, 130]) :=
  monitor_avg_response_time scenarioWindow [120, 0, 130] (by decide) (by decide)

/-- C8: a missing (or empty, which JS treats as missing) URL, or a URL
on which the platform URL constructor throws, makes the monitor command
print exactly one error message and return without a loop
configuration — monitoring never starts and no probe is issued. -/
theorem monitor_config_error_no_loop (opts : MonitorOptions) (urlOutcome : Option String)
    (hbad : opts.url = none ∨ opts.url = some ("") ∨ urlOutcome = none) :
    (websiteMonitorAction opts urlOutcome).2 = none
    ∧ (websiteMonitorAction opts urlOutcome).1.length = 1 := by
  rcases hbad with h | h | h
  · simp [websiteMonitorAction, h]
  · have he : ("" : String).isEmpty = true := rfl
    simp [websiteMonitorAction, h, he]
  · subst h
    rcases hu : opts.url with _ | u
    · simp [websiteMonitorAction, hu]
    · by_cases he : u.isEmpty <;> simp [websiteMonitorAction, hu, he]

/-- C8 witness: the configuration-error behaviour at a concrete option
record with no URL. -/
theorem monitor_config_error_no_loop_witness :
    (websiteMonitorAction { url := none, interval := "60", timeout := "10", ping := false } none).2 = none
    ∧ (websiteMonitorAction { url := none, interval := "60", timeout := "10", ping := false } none).1.length = 1 :=
  monitor_config_error_no_loop
    { url := none, interval := "60", timeout := "10", ping := false } none (Or.inl rfl)

/-- C9: every result ever stored in a history by the monitor loop has
`isUp` equal to the pure function `status == 200` of its status at
insertion time, and no later tick mutates it. -/
theorem monitor_isUp_pure_function (os : List ProbeOutcome) (url ts : String)
    (r : MonitoringResult) (hr : r ∈ cacheGet (runTicks [] url os ts) url) :
    r.isUp = (r.status == 200) :=
  runTicks_isUp_inv url ts os [] (by simp [cacheGet]) r hr

/-- C9 witness: the stored result of a concrete successful HTTP probe. -/
theorem monitor_isUp_pure_function_witness :
    ({ timestamp := "t", status := 200, responseTime := some 120, isUp := true } :
      MonitoringResult).isUp = (200 == 200) :=
  monitor_isUp_pure_function [ProbeOutcome.httpResponse 200 120] ("u") ("t")
    { timestamp := "t", status := 200, responseTime := some 120, isUp := true } (by decide)

/-- C10: when the probe step of a tick throws, the `try` body escapes to
the `catch` (the run is an error), the cache is left entirely unchanged
— no result appended, no aggregate recomputed — and only the error
message is reported. -/
theorem monitor_thrown_probe_cache_unchanged (cache : Cache) (url msg ts : String) :
    runCheck cache url (ProbeOutcome.thrown msg) ts = Except.error msg
    ∧ (tickStep cache url (ProbeOutcome.thrown msg) ts).1 = cache
    ∧ (tickStep cache url (ProbeOutcome.thrown msg) ts).2 = some msg := by
  exact ⟨rfl, rfl, rfl⟩

end MultiCli
